import Mathlib

/-!
Shallow embedding of the kiln-controller control subsystem:
`lib/oven_time.py`, `lib/pid.py`, `lib/temp_sensor.py`, `lib/oven.py` and
`lib/ovenWatcher.py`.

Modelling conventions:
* Python floats are modelled as exact rationals (`ℚ`).
* Values that the Python code obtains from `time.time()` / `Time.now()`
  are passed in as explicit `wall` / `now` parameters.
* Fallible Python code is modelled with `Option`: `none` stands for a
  raised exception (`ZeroDivisionError`, `ValueError` from `max([])`).
* Each definition carries a comment naming the Python function or method
  it embeds.
-/

/-- State of the `Time` class in `lib/oven_time.py`: the class attributes
`_speed` and `_reference_time`. -/
structure TimeState where
  speed : ℚ
  reference_time : ℚ
deriving Repr, DecidableEq

/-- `Time.speed_set` (`oven_time.py` lines 9-12): store the new speed and
reset the reference instant to the current wall clock reading `wall`. -/
def TimeState.speed_set (_st : TimeState) (speed wall : ℚ) : TimeState :=
  { speed := speed, reference_time := wall }

/-- `Time.now` (`oven_time.py` lines 18-21):
`_reference_time + _speed * (time.time() - _reference_time)`. -/
def TimeState.now (st : TimeState) (wall : ℚ) : ℚ :=
  st.reference_time + st.speed * (wall - st.reference_time)

/-- State of the `PID` controller in `lib/pid.py`: the gains taken from
`ConfigPID`, the accumulated integral term `iterm`, the previous error
`last_err`, and the `_control_enabled` flag.  The flag is `True` on
construction and nothing in the repository ever calls
`disable_pid_control`, so every `compute` call made by the program runs
with `control_enabled = true`. -/
structure PID where
  kp : ℚ
  ki : ℚ
  kd : ℚ
  iterm : ℚ := 0
  last_err : ℚ := 0
  control_enabled : Bool := true
deriving Repr, DecidableEq

/-- `PID.compute` (`pid.py` lines 36-104).  `time_delta_secs` is the value
Python computes as `(Time.now() - self.lastNow).total_seconds()`; the
update of `self.lastNow` is thereby implicit.  Returns the updated
controller state together with the normalized output.  `none` models the
`ZeroDivisionError` raised by `d_err = (error - last_err)/time_delta_secs`
when the elapsed time is zero (in that case Python has already mutated
`iterm` before raising; the partially-updated object is not modelled).
Python's `sorted([0, output, window_size])[1]` is the median of the three
values, i.e. `max 0 (min output window_size)` since `0 ≤ window_size`. -/
def PID.compute (p : PID) (setpoint ispoint time_delta_secs : ℚ) :
    Option (PID × ℚ) :=
  let window_size : ℚ := 100
  let error : ℚ := setpoint - ispoint
  if p.control_enabled then
    if time_delta_secs = 0 then none
    else
      let i_component : ℚ :=
        if 0 < p.ki ∧ |p.kp * error| ≤ window_size then
          error * time_delta_secs * (1 / p.ki)
        else 0
      let iterm := p.iterm + i_component
      let d_err := (error - p.last_err) / time_delta_secs
      let output := p.kp * error + iterm + p.kd * d_err
      let clamped := max 0 (min output window_size)
      some ({ p with iterm := iterm, last_err := error }, clamped / window_size)
  else
    -- `pid.py` lines 55-67: integral reset, `d_err = 0`, bang-bang output.
    let output : ℚ := if error < 0 then 0 else window_size
    let clamped := max 0 (min output window_size)
    some ({ p with iterm := 0, last_err := error }, clamped / window_size)

/-- Immutable firing profile (`Profile` in `lib/oven.py`): a name and the
`(time, temperature)` points, sorted at construction. -/
structure Profile where
  name : String
  data : List (ℚ × ℚ)
deriving Repr, DecidableEq

/-- `Profile.get_duration` (`oven.py` lines 32-33):
`max([t for (t, x) in self.data])`.  `none` models the `ValueError`
raised by `max` on an empty sequence. -/
def get_duration : List (ℚ × ℚ) → Option ℚ
  | [] => none
  | p :: rest =>
    match get_duration rest with
    | none => some p.1
    | some d => some (max p.1 d)

/-- Scan inside `Profile._get_surrounding_points` (`oven.py` lines 42-46):
find the first point whose time exceeds `t`; `prev` is the point before it
in scan order.  At index 0 Python evaluates `self.data[i-1] = self.data[-1]`,
the LAST point, which is why the caller seeds `prev` with the last
element of the list. -/
def bracketAux (t : ℚ) : (ℚ × ℚ) → List (ℚ × ℚ) → Option ((ℚ × ℚ) × (ℚ × ℚ))
  | _, [] => none
  | prev, p :: rest => if t < p.1 then some (prev, p) else bracketAux t p rest

/-- `Profile._get_surrounding_points` (`oven.py` lines 35-48).  Python
returns the pair `(None, None)` both when `time_ > duration` and when the
scan finds no bracketing pair; `none` covers both (and the impossible
empty-data case, where `get_duration` would have raised first). -/
def get_surrounding_points (data : List (ℚ × ℚ)) (t : ℚ) :
    Option ((ℚ × ℚ) × (ℚ × ℚ)) :=
  match get_duration data, data.getLast? with
  | some dur, some last => if t > dur then none else bracketAux t last data
  | _, _ => none

/-- `Profile.get_target_temperature` (`oven.py` lines 50-60).  `none`
models the exceptions: `max([])` on an empty profile and the
`ZeroDivisionError` in `incl` when the two bracketing points share a
time coordinate. -/
def get_target_temperature (data : List (ℚ × ℚ)) (t : ℚ) : Option ℚ :=
  match get_duration data with
  | none => none
  | some dur =>
    if t > dur then some 0
    else
      match get_surrounding_points data t with
      | none => some 0
      | some (p, n) =>
        if n.1 - p.1 = 0 then none
        else some (p.2 + (t - p.1) * ((n.2 - p.2) / (n.1 - p.1)))

/-- Mean `sum(samples)/len(samples)` as computed inline in
`_calculate_temperature` (`temp_sensor.py` lines 93 and 107). -/
def listMean (xs : List ℚ) : ℚ := xs.sum / xs.length

/-- Population variance about `mu`: the square of
`statistics.pstdev(samples, mu)` used by `_calculate_z_scores`
(`temp_sensor.py` line 83).  Working with the squared deviation keeps the
computation in `ℚ`: for `sd > 0` the z-score test `abs((x - mu)/sd) < 2.0`
is exactly `(x - mu)^2 < 4 * pvariance`, and `sd = 0` is `pvariance = 0`. -/
def pvariance (xs : List ℚ) (mu : ℚ) : ℚ :=
  (xs.map (fun x => (x - mu) ^ 2)).sum / xs.length

/-- `_calculate_temperature` (`temp_sensor.py` lines 90-108).  The
`pvariance = 0` branch is Python's `if not z_scores` branch
(`_calculate_z_scores` returns `None` exactly when `pstdev` is zero); the
filter keeps the samples whose z-score satisfies `abs(z) < 2.0`, stated
here in the squared form.  Note that Python would raise
`ZeroDivisionError` in the final mean if the filter kept nothing; claim
C10 shows the filtered list is never empty in that branch. -/
def calculate_temperature (samples : List ℚ) : ℚ :=
  if samples.length = 0 then 0
  else if pvariance samples (listMean samples) = 0 then listMean samples
  else
    listMean (samples.filter (fun x =>
      decide ((x - listMean samples) ^ 2 <
        4 * pvariance samples (listMean samples))))

/-- The two states of `OvenState` (`oven.py` lines 82-84). -/
inductive OvenState where
  | IDLE
  | RUNNING
deriving Repr, DecidableEq

/-- `Enum.name` of an `OvenState` member. -/
def OvenState.pyName : OvenState → String
  | .IDLE => "IDLE"
  | .RUNNING => "RUNNING"

/-- Python's `str.capitalize()`: first character upper-cased, the rest
lower-cased. -/
def pyCapitalize (s : String) : String :=
  match s.data with
  | [] => ""
  | c :: cs => String.mk (c.toUpper :: cs.map Char.toLower)

/-- The `'state'` entry of the snapshot built by `Oven._runtime_info`
(`oven.py` line 299): `self._state.name.capitalize()`. -/
def runtime_info_state (st : OvenState) : String :=
  pyCapitalize st.pyName

/-- Snapshot dictionary returned by `Oven._runtime_info` (`oven.py`
lines 285-308), reduced to the field the watcher inspects (`'state'`)
plus one representative payload field; the remaining entries (target,
heat, pidstats, ...) do not influence the watcher's control flow. -/
structure OvenSnapshot where
  state : String
  runtime : ℚ
deriving Repr, DecidableEq

/-- The fields of `OvenWatcher` (`lib/ovenWatcher.py`) that its polling
loop mutates: the in-memory log and the recording flag. -/
structure WatcherState where
  last_log : List OvenSnapshot
  recording : Bool
deriving Repr, DecidableEq

/-- One iteration of the polling loop in `OvenWatcher.run`
(`ovenWatcher.py` lines 38-48), minus the `notify_all` fan-out: append
the snapshot when its state string equals `"RUNNING"`, otherwise stop
recording. -/
def watcher_poll (w : WatcherState) (snap : OvenSnapshot) : WatcherState :=
  if snap.state = "RUNNING" then { w with last_log := w.last_log ++ [snap] }
  else { w with recording := false }

/-- `TempSensorStatus` (`temp_sensor.py` lines 28-38) with its dataclass
defaults. -/
structure TempSensorStatus where
  temperature : ℚ := 0
  bad_count : ℕ := 0
  ok_count : ℕ := 0
  bad_stamp : ℚ := 0
  bad_percent : ℚ := 0
  noConnection : Bool := false
  shortToGround : Bool := false
  shortToVCC : Bool := false
  unknownError : Bool := false
deriving Repr, DecidableEq

/-- The configuration fields consumed by the embedded `Oven` methods
(`Config` in `lib/config_from_yaml.py`, with the defaults declared
there).  `kiln_must_catch_up_max_error` is read by
`Oven.kiln_must_catch_up` and defined in `config.py` (value 5), although
the yaml `Config` dataclass omits it. -/
structure OvenCfg where
  emergency_shutoff_temp : ℚ
  ignore_emergencies : Bool := false
  kiln_must_catch_up : Bool := true
  kiln_must_catch_up_max_error : ℚ := 5
deriving Repr, DecidableEq

/-- The fields of the `Oven` actor (`oven.py` lines 92-109) touched by the
state-machine, catch-up and emergency logic.  The `PID` instance is
modelled separately by `PID` above, and timers only re-enqueue tick
messages. -/
structure OvenSM where
  state : OvenState
  profile : Option Profile := none
  total_catch_up_secs : ℚ := 0
  runtime_secs : ℚ := 0
  total_time_secs : ℚ := 0
  start_at_secs : ℚ := 0
  target_temp : ℚ := 0
  heat : ℚ := 0
  load_percent : ℚ := 0
  are_catching_up : Bool := false
  catchup_start_time : ℚ := 0
  start_time : ℚ := 0
deriving Repr, DecidableEq

/-- `Oven._reset` (`oven.py` lines 140-151): back to `IDLE` with the run
bookkeeping cleared.  The timer stop and the re-instantiated `PID`
object (fresh `iterm`/`last_err`) live outside this record. -/
def ovenReset (st : OvenSM) : OvenSM :=
  { st with
    state := OvenState.IDLE
    profile := none
    total_catch_up_secs := 0
    runtime_secs := 0
    total_time_secs := 0
    target_temp := 0
    heat := 0
    load_percent := 0
    are_catching_up := false }

/-- `Oven._run_profile` (`oven.py` lines 157-179).  `now` is the
`Time.now()` value stored into `_start_time`; the `Time.speed_set`
side effect on the global clock is modelled by `TimeState.speed_set`
separately.  `none` models the `ValueError` that
`profile.get_duration()` would raise on an empty point list. -/
def run_profile_step (st : OvenSM) (status : TempSensorStatus)
    (profile : Profile) (start_at_minute now : ℚ) : Option OvenSM :=
  let st := ovenReset st
  if status.noConnection then some st
  else if status.shortToGround then some st
  else if status.shortToVCC then some st
  else if status.unknownError then some st
  else
    match get_duration profile.data with
    | none => none
    | some dur =>
      some { st with
        profile := some profile
        total_time_secs := dur
        start_time := now
        start_at_secs := start_at_minute * 60
        state := OvenState.RUNNING }

/-- `Oven._catch_up_on` (`oven.py` lines 184-187). -/
def catch_up_on (st : OvenSM) (now : ℚ) : OvenSM :=
  if st.are_catching_up then st
  else { st with are_catching_up := true, catchup_start_time := now }

/-- `Oven._catch_up_off` (`oven.py` lines 189-193). -/
def catch_up_off (st : OvenSM) (now : ℚ) : OvenSM :=
  if st.are_catching_up then
    { st with
      are_catching_up := false
      total_catch_up_secs := st.total_catch_up_secs + (now - st.catchup_start_time) }
  else st

/-- `Oven.kiln_must_catch_up` (`oven.py` lines 195-222).  `temperature` is
the sensor reading `self.temp_sensor.temperature`; the target is the
`_target_temp` field (computed by `update_target_temp` on the previous
tick). -/
def kiln_must_catch_up (cfg : OvenCfg) (st : OvenSM) (temperature now : ℚ) :
    OvenSM :=
  if !cfg.kiln_must_catch_up then catch_up_off st now
  else if st.target_temp - temperature > cfg.kiln_must_catch_up_max_error then
    catch_up_on st now
  else if temperature - st.target_temp > cfg.kiln_must_catch_up_max_error then
    catch_up_on st now
  else catch_up_off st now

/-- `Oven.update_runtime` (`oven.py` lines 224-230). -/
def update_runtime (st : OvenSM) (now : ℚ) : OvenSM :=
  if st.are_catching_up then st
  else
    let d := now - st.start_time
    let d := if d < 0 then 0 else d
    { st with runtime_secs := st.start_at_secs + d - st.total_catch_up_secs }

/-- Steps (1) catch-up evaluation and (2) runtime update of one `RUNNING`
tick of `Oven._update_oven` (`oven.py` lines 341-342), the part of the
tick that claim C6 is about. -/
def catch_up_tick (cfg : OvenCfg) (st : OvenSM) (temperature now : ℚ) :
    OvenSM :=
  update_runtime (kiln_must_catch_up cfg st temperature now) now

/-- `Oven.reset_if_emergency` (`oven.py` lines 235-257). -/
def reset_if_emergency (cfg : OvenCfg) (st : OvenSM)
    (status : TempSensorStatus) : OvenSM :=
  let should_reset :=
    decide (status.temperature ≥ cfg.emergency_shutoff_temp) ||
      status.noConnection || status.unknownError ||
      decide (status.bad_percent > 30)
  if should_reset && !cfg.ignore_emergencies then ovenReset st else st

/-- Configuration used by the concrete catch-up scenario of claim C6:
catch-up enabled with the `config.py` tolerance of 5 degrees. -/
def cfgC6 : OvenCfg :=
  { emergency_shutoff_temp := 1000
    ignore_emergencies := false
    kiln_must_catch_up := true
    kiln_must_catch_up_max_error := 5 }

/-- Oven state for the C6 scenario after a first normal tick at `now = 10`
(runtime advanced to 10) and after `update_target_temp` raised the target
to 500 for the next tick. -/
def ovenC6pre : OvenSM :=
  { state := OvenState.RUNNING
    profile := none
    total_catch_up_secs := 0
    runtime_secs := 10
    total_time_secs := 3600
    start_at_secs := 0
    target_temp := 500
    heat := 0
    load_percent := 0
    are_catching_up := false
    catchup_start_time := 0
    start_time := 0 }

/-- Oven state for the C6 scenario while catching up: the tick at
`now = 20` with measured 400 engaged catch-up (runtime still 10,
episode started at 20). -/
def ovenC6catching : OvenSM :=
  { state := OvenState.RUNNING
    profile := none
    total_catch_up_secs := 0
    runtime_secs := 10
    total_time_secs := 3600
    start_at_secs := 0
    target_temp := 500
    heat := 0
    load_percent := 0
    are_catching_up := true
    catchup_start_time := 20
    start_time := 0 }

/-! ## Claim C4: virtual clock continuity across `Time.speed_set` -/

/-- C4 counterexample: with speed 2 and reference instant 0, at wall
instant 10 `Time.now()` reads 20 immediately before `speed_set` and 10
immediately after it, so virtual time is NOT continuous across a speed
change. -/
theorem C4_discontinuity_counterexample :
    (TimeState.mk 2 0).now 10 = 20 ∧
    ((TimeState.mk 2 0).speed_set 5 10).now 10 = 10 ∧ (20 : ℚ) ≠ 10 := by
  refine ⟨by norm_num [TimeState.now], ?_, by norm_num⟩
  norm_num [TimeState.now, TimeState.speed_set]

/-- C4 amended: calling `Time.speed_set` at wall instant `wall` makes
`Time.now()` read exactly `wall` afterwards, discarding previously scaled
elapsed time; the clock value is unchanged across the call precisely when
the old speed is 1 or no wall time has passed since the reference
instant. -/
theorem C4_speed_set_resets_now (st : TimeState) (s wall : ℚ) :
    (st.speed_set s wall).now wall = wall ∧
    (st.now wall = (st.speed_set s wall).now wall ↔
      st.speed = 1 ∨ wall = st.reference_time) := by
  have hafter : (st.speed_set s wall).now wall = wall := by
    simp [TimeState.now, TimeState.speed_set]
  refine ⟨hafter, ?_⟩
  rw [hafter]
  unfold TimeState.now
  constructor
  · intro h
    have h2 : (st.speed - 1) * (wall - st.reference_time) = 0 := by
      linear_combination h
    rcases mul_eq_zero.mp h2 with h3 | h3
    · exact Or.inl (by linarith)
    · exact Or.inr (by linarith)
  · rintro (h | h) <;> rw [h] <;> ring

/-! ## Claims C3 and C5: the PID controller -/

/-- C3 counterexample: with gains `kp = 0, ki = 2, kd = 0`, zero prior
integral, error 1 and `Δt = 1`, the code adds
`error * Δt * (1/ki) = 1/2` to the integral, not `error * Δt * ki = 2`
as the claim states. -/
theorem C3_integral_gain_counterexample :
    (PID.compute { kp := 0, ki := 2, kd := 0 } 1 0 1).map (fun r => r.1.iterm)
      = some (1 / 2) ∧ (1 / 2 : ℚ) ≠ 1 * 1 * 2 := by
  constructor
  · norm_num [PID.compute]
  · norm_num

/-- C3 amended: with PID control enabled (the only mode the repository
uses) and a nonzero time step, the integral term accumulates
`error * Δt * (1/ki)` exactly when `ki > 0` and `|kp * error| ≤ 100`,
and is left unchanged (frozen, not reset) otherwise. -/
theorem C3_integral_update (p : PID) (setpoint ispoint dt : ℚ)
    (hen : p.control_enabled = true) (hdt : dt ≠ 0) :
    ∃ p' out, PID.compute p setpoint ispoint dt = some (p', out) ∧
      p'.iterm =
        (if 0 < p.ki ∧ |p.kp * (setpoint - ispoint)| ≤ 100 then
          p.iterm + (setpoint - ispoint) * dt * (1 / p.ki)
        else p.iterm) := by
  simp only [PID.compute, hen, if_true, if_neg hdt]
  refine ⟨_, _, rfl, ?_⟩
  split_ifs with hc <;> simp

/-- C3 amended, witness at `kp = ki = 1, kd = 0`, setpoint 50, measured 0,
`Δt = 1`. -/
theorem C3_integral_update_witness :
    ∃ p' out,
      PID.compute { kp := 1, ki := 1, kd := 0 } 50 0 1 = some (p', out) ∧
      p'.iterm =
        (if 0 < (1 : ℚ) ∧ |(1 : ℚ) * (50 - 0)| ≤ 100 then
          (0 : ℚ) + (50 - 0) * 1 * (1 / 1)
        else (0 : ℚ)) :=
  C3_integral_update { kp := 1, ki := 1, kd := 0 } 50 0 1 rfl (by norm_num)

/-- C5: with control enabled (the only mode the repository uses) and a
nonzero time step, `PID.compute` returns the raw output
`kp*error + integral + kd*derivative` clamped to `[0, 100]` and divided
by 100 - hence a value in `[0, 1]` - and the integral term is unchanged
whenever `|kp * error| > 100`. -/
theorem C5_output_clamped_in_unit_range (p : PID) (setpoint ispoint dt : ℚ)
    (hen : p.control_enabled = true) (hdt : dt ≠ 0) :
    ∃ p' out, PID.compute p setpoint ispoint dt = some (p', out) ∧
      0 ≤ out ∧ out ≤ 1 ∧
      out = max 0 (min (p.kp * (setpoint - ispoint) + p'.iterm +
          p.kd * ((setpoint - ispoint - p.last_err) / dt)) 100) / 100 ∧
      (100 < |p.kp * (setpoint - ispoint)| → p'.iterm = p.iterm) := by
  simp only [PID.compute, hen, if_true, if_neg hdt]
  refine ⟨_, _, rfl, ?_, ?_, ?_, ?_⟩
  · apply div_nonneg (le_max_left _ _) (by norm_num)
  · rw [div_le_one (by norm_num)]
    exact max_le (by norm_num) (min_le_right _ _)
  · ring_nf
  · intro h
    have hc : ¬(0 < p.ki ∧ |p.kp * (setpoint - ispoint)| ≤ 100) := by
      intro hc
      exact absurd hc.2 (not_le.mpr h)
    simp [hc]

/-- C5 witness at `kp = ki = 1, kd = 0`, setpoint 200, measured 0,
`Δt = 1`: the proportional term alone exceeds the window, the integral
stays frozen and the output saturates at 1. -/
theorem C5_output_clamped_witness :
    ∃ p' out,
      PID.compute { kp := 1, ki := 1, kd := 0 } 200 0 1 = some (p', out) ∧
      0 ≤ out ∧ out ≤ 1 ∧
      out = max 0 (min ((1 : ℚ) * (200 - 0) + p'.iterm +
          0 * ((200 - 0 - 0) / 1)) 100) / 100 ∧
      (100 < |(1 : ℚ) * (200 - 0)| → p'.iterm = 0) :=
  C5_output_clamped_in_unit_range { kp := 1, ki := 1, kd := 0 } 200 0 1 rfl
    (by norm_num)

/-! ## Claim C2: the OvenWatcher recording loop -/

/-- C2 (code bug evidence): a snapshot taken while the oven is in the
`RUNNING` state carries the state string `"Running"`
(`self._state.name.capitalize()`), which the watcher compares against
`"RUNNING"`; the comparison is always false, so the snapshot is never
appended to the log and `recording` is unconditionally cleared even
though the oven is running. -/
theorem C2_running_snapshot_never_logged (w : WatcherState) (runtime : ℚ) :
    (watcher_poll w
        { state := runtime_info_state OvenState.RUNNING, runtime := runtime }).last_log
      = w.last_log ∧
    (watcher_poll w
        { state := runtime_info_state OvenState.RUNNING, runtime := runtime }).recording
      = false := by
  have hs : runtime_info_state OvenState.RUNNING = "Running" := by decide
  constructor <;> simp [watcher_poll, hs]

/-! ## Claims C9 and C10: the outlier-filtered mean -/

/-- Helper: a sum of squared deviations vanishes exactly when every
sample equals `mu`. -/
theorem sum_sq_eq_zero_iff (mu : ℚ) :
    ∀ xs : List ℚ,
      ((xs.map (fun x => (x - mu) ^ 2)).sum = 0 ↔ ∀ x ∈ xs, x = mu) := by
  intro xs
  induction xs with
  | nil => simp
  | cons a l ih =>
    simp only [List.map_cons, List.sum_cons, List.mem_cons]
    constructor
    · intro h
      have hrest_nonneg : 0 ≤ (l.map (fun x => (x - mu) ^ 2)).sum :=
        List.sum_nonneg (fun y hy => by
          obtain ⟨x, _, rfl⟩ := List.mem_map.mp hy
          positivity)
      have hhead : (a - mu) ^ 2 = 0 := by nlinarith [sq_nonneg (a - mu)]
      have hrest : (l.map (fun x => (x - mu) ^ 2)).sum = 0 := by nlinarith
      intro x hx
      rcases hx with rfl | hx
      · have hx0 : x - mu = 0 := by
          have := sq_eq_zero_iff.mp hhead
          exact this
        linarith
      · exact (ih.mp hrest) x hx
    · intro h
      have h1 : (a - mu) ^ 2 = 0 := by
        have ha := h a (Or.inl rfl)
        rw [ha]
        ring
      have h2 : (l.map (fun x => (x - mu) ^ 2)).sum = 0 :=
        ih.mpr (fun x hx => h x (Or.inr hx))
      rw [h1, h2]
      ring

/-- Helper: the population variance is nonnegative. -/
theorem pvariance_nonneg (xs : List ℚ) (mu : ℚ) : 0 ≤ pvariance xs mu := by
  unfold pvariance
  apply div_nonneg
  · exact List.sum_nonneg (fun y hy => by
      obtain ⟨x, _, rfl⟩ := List.mem_map.mp hy
      positivity)
  · positivity

/-- Helper: for a nonempty window, zero population variance means all
samples equal `mu` (the branch condition of `_calculate_temperature`). -/
theorem pvariance_eq_zero_iff (xs : List ℚ) (mu : ℚ) (h : xs ≠ []) :
    pvariance xs mu = 0 ↔ ∀ x ∈ xs, x = mu := by
  unfold pvariance
  have hlen : (xs.length : ℚ) ≠ 0 := by
    have : xs.length ≠ 0 := by simpa [List.length_eq_zero] using h
    exact_mod_cast this
  rw [div_eq_zero_iff]
  simp [hlen, sum_sq_eq_zero_iff]

/-- Helper: the mean of a nonempty constant list is that constant. -/
theorem listMean_of_const (xs : List ℚ) (c : ℚ) (h : xs ≠ [])
    (hc : ∀ x ∈ xs, x = c) : listMean xs = c := by
  have hrep : xs = List.replicate xs.length c :=
    List.eq_replicate_iff.mpr ⟨rfl, hc⟩
  have hlen : (xs.length : ℚ) ≠ 0 := by
    have : xs.length ≠ 0 := by simpa [List.length_eq_zero] using h
    exact_mod_cast this
  unfold listMean
  rw [hrep]
  simp only [List.sum_replicate, List.length_replicate, nsmul_eq_mul]
  exact mul_div_cancel_left₀ c hlen

/-- Helper: a pointwise lower bound on a list of rationals bounds the
sum from below by `bound * length`. -/
theorem mul_length_le_sum (c : ℚ) :
    ∀ xs : List ℚ, (∀ x ∈ xs, c ≤ x) → c * xs.length ≤ xs.sum := by
  intro xs
  induction xs with
  | nil => simp
  | cons a l ih =>
    intro h
    have ha := h a (by simp)
    have hl := ih (fun x hx => h x (by simp [hx]))
    simp only [List.sum_cons, List.length_cons]
    push_cast
    nlinarith

/-- C9 counterexample: on the spec's example window
`[100, 101, 99, 100, 250]` the mean is 130 and the population variance
3600.4, so the squared deviation of 250 (14400) is BELOW the cutoff
`4 * 3600.4 = 14401.6` (z-score about 1.9999, not 2.0): the sample 250
is kept, no sample is rejected, and the result is 130, not 100. -/
theorem C9_example_counterexample :
    calculate_temperature [100, 101, 99, 100, 250] = 130 ∧ (130 : ℚ) ≠ 100 ∧
    (250 - listMean [100, 101, 99, 100, 250]) ^ 2 <
      4 * pvariance [100, 101, 99, 100, 250] (listMean [100, 101, 99, 100, 250]) := by
  refine ⟨?_, by norm_num, ?_⟩
  · norm_num [calculate_temperature, listMean, pvariance, List.filter_cons,
      List.sum_cons, List.sum_nil, List.map_cons, List.map_nil, decide_eq_true_eq]
  · norm_num [listMean, pvariance, List.sum_cons, List.sum_nil, List.map_cons,
      List.map_nil]

/-- C9 amended: on a nonempty window, `_calculate_temperature` returns
the unfiltered mean when all samples are identical, and otherwise the
mean of exactly the samples whose squared deviation from the mean is
below `4 * pvariance` (i.e. z-score magnitude strictly below 2.0).  The
spec's concrete example is corrected: `[100, 101, 99, 100, 250]` keeps
250 (z about 1.9999) and yields 130; the exact-z-score-2 exclusion needs
`[100, 100, 100, 100, 250]`, which yields 100 (see the witness). -/
theorem C9_filtered_mean (xs : List ℚ) (hne : xs ≠ []) :
    ((∀ x ∈ xs, ∀ y ∈ xs, x = y) → calculate_temperature xs = listMean xs) ∧
    (¬(∀ x ∈ xs, ∀ y ∈ xs, x = y) →
      calculate_temperature xs =
        listMean (xs.filter (fun x =>
          decide ((x - listMean xs) ^ 2 <
            4 * pvariance xs (listMean xs))))) := by
  have hlen0 : ¬xs.length = 0 := by simpa [List.length_eq_zero] using hne
  constructor
  · intro hid
    have hmu : ∀ x ∈ xs, x = listMean xs := by
      cases xs with
      | nil => simp at hne
      | cons a l =>
        have ha : ∀ x ∈ a :: l, x = a := fun x hx => hid x hx a (by simp)
        have hmean : listMean (a :: l) = a := listMean_of_const _ a (by simp) ha
        intro x hx
        rw [hmean]
        exact ha x hx
    have hv : pvariance xs (listMean xs) = 0 :=
      (pvariance_eq_zero_iff xs _ hne).mpr hmu
    simp [calculate_temperature, hlen0, hv]
  · intro hid
    have hv : pvariance xs (listMean xs) ≠ 0 := by
      intro hv
      apply hid
      have hall := (pvariance_eq_zero_iff xs _ hne).mp hv
      intro x hx y hy
      rw [hall x hx, hall y hy]
    simp [calculate_temperature, hlen0, hv]

/-- C9 amended, witness: `[100, 100, 100, 100, 250]` is not constant, so
the filtered branch applies; evaluating it rejects 250 (z-score exactly
2.0) and yields 100. -/
theorem C9_filtered_mean_witness :
    calculate_temperature [100, 100, 100, 100, 250] = 100 := by
  have hid : ¬(∀ x ∈ ([100, 100, 100, 100, 250] : List ℚ),
      ∀ y ∈ ([100, 100, 100, 100, 250] : List ℚ), x = y) := by
    intro h
    have := h 100 (by simp) 250 (by simp)
    norm_num at this
  have h := (C9_filtered_mean [100, 100, 100, 100, 250] (by simp)).2 hid
  rw [h]
  norm_num [listMean, pvariance, List.filter_cons, List.sum_cons, List.sum_nil,
    List.map_cons, List.map_nil, decide_eq_true_eq]

/-- C10: `_calculate_temperature` is total: it returns 0 on the empty
window, and whenever the window is nonempty and not constant the
z-filtered subset is itself nonempty (some sample has squared deviation
at most the variance, hence z-score magnitude at most 1 < 2), so the
final mean never divides by a zero count. -/
theorem C10_filtered_mean_total (xs : List ℚ) :
    (xs = [] → calculate_temperature xs = 0) ∧
    (xs ≠ [] → ¬(∀ x ∈ xs, ∀ y ∈ xs, x = y) →
      xs.filter (fun x =>
        decide ((x - listMean xs) ^ 2 <
          4 * pvariance xs (listMean xs))) ≠ []) := by
  constructor
  · rintro rfl
    simp [calculate_temperature]
  · intro hne hid
    have hv : pvariance xs (listMean xs) ≠ 0 := by
      intro hv
      apply hid
      have hall := (pvariance_eq_zero_iff xs _ hne).mp hv
      intro x hx y hy
      rw [hall x hx, hall y hy]
    have hvpos : 0 < pvariance xs (listMean xs) :=
      lt_of_le_of_ne (pvariance_nonneg xs _) (Ne.symm hv)
    have hlenpos : (0 : ℚ) < xs.length := by
      have : xs.length ≠ 0 := by simpa [List.length_eq_zero] using hne
      exact_mod_cast Nat.pos_of_ne_zero this
    intro hempty
    have hall : ∀ x ∈ xs, 4 * pvariance xs (listMean xs) ≤ (x - listMean xs) ^ 2 := by
      intro x hx
      by_contra hcon
      have hmem : x ∈ xs.filter (fun x =>
          decide ((x - listMean xs) ^ 2 < 4 * pvariance xs (listMean xs))) :=
        List.mem_filter.mpr ⟨hx, by simpa using not_le.mp hcon⟩
      rw [hempty] at hmem
      simp at hmem
    have hbound : 4 * pvariance xs (listMean xs) * xs.length ≤
        (xs.map (fun x => (x - listMean xs) ^ 2)).sum := by
      have hmap : ∀ y ∈ xs.map (fun x => (x - listMean xs) ^ 2),
          4 * pvariance xs (listMean xs) ≤ y := by
        intro y hy
        obtain ⟨x, hx, rfl⟩ := List.mem_map.mp hy
        exact hall x hx
      have := mul_length_le_sum (4 * pvariance xs (listMean xs)) _ hmap
      simpa using this
    have hsum : (xs.map (fun x => (x - listMean xs) ^ 2)).sum =
        pvariance xs (listMean xs) * xs.length := by
      unfold pvariance
      rw [div_mul_cancel₀]
      exact ne_of_gt hlenpos
    rw [hsum] at hbound
    nlinarith

/-- C10 witness: the empty window yields 0, and the non-constant window
`[100, 100, 100, 100, 250]` has a nonempty z-filtered subset. -/
theorem C10_filtered_mean_total_witness :
    calculate_temperature ([] : List ℚ) = 0 ∧
    ([100, 100, 100, 100, 250] : List ℚ).filter (fun x =>
      decide ((x - listMean [100, 100, 100, 100, 250]) ^ 2 <
        4 * pvariance [100, 100, 100, 100, 250]
          (listMean [100, 100, 100, 100, 250]))) ≠ [] :=
  ⟨(C10_filtered_mean_total []).1 rfl,
   (C10_filtered_mean_total _).2 (by simp) (by
     intro h
     have := h 100 (by simp) 250 (by simp)
     norm_num at this)⟩

/-! ## Claims C6, C7, C8: the Oven state machine -/

/-- Helper: `get_duration` succeeds on every nonempty point list. -/
theorem get_duration_ne_none (data : List (ℚ × ℚ)) (h : data ≠ []) :
    ∃ d, get_duration data = some d := by
  cases data with
  | nil => exact absurd rfl h
  | cons p rest =>
    cases hrest : get_duration rest with
    | none => exact ⟨p.1, by simp [get_duration, hrest]⟩
    | some d => exact ⟨max p.1 d, by simp [get_duration, hrest]⟩

/-- C6 counterexample: catch-up engages on the tick at `now = 20`
(target 500, measured 400) with the runtime frozen at 10; on the resume
tick at `now = 30` the runtime becomes 20, not the frozen value 10 - the
interval between the last pre-catch-up runtime update (`now = 10`) and
the engage tick (`now = 20`) is NOT discounted, so runtime does not
resume from the value at which it froze. -/
theorem C6_resume_counterexample :
    (catch_up_tick cfgC6 ovenC6pre 400 20).runtime_secs = 10 ∧
    (catch_up_tick cfgC6 ovenC6pre 400 20).are_catching_up = true ∧
    catch_up_tick cfgC6 ovenC6pre 400 20 = ovenC6catching ∧
    (catch_up_tick cfgC6 ovenC6catching 500 30).runtime_secs = 20 ∧
    (20 : ℚ) ≠ 10 := by
  refine ⟨?_, ?_, ?_, ?_, by norm_num⟩ <;>
    norm_num [catch_up_tick, kiln_must_catch_up, catch_up_on, catch_up_off,
      update_runtime, cfgC6, ovenC6pre, ovenC6catching]

/-- C6 amended: with catch-up enabled, any tick with
`|target - measured| > maxCatchUpError` turns catch-up on and leaves the
runtime unchanged; the first tick back within tolerance turns catch-up
off, adds the episode's wall time (engage instant to resume instant) to
the catch-up total, and sets the runtime to the virtual elapsed value at
the instant catch-up ENGAGED - the frozen runtime value plus the
interval between the last pre-catch-up update and the engage tick. -/
theorem C6_catch_up_freeze_resume (cfg : OvenCfg) (st : OvenSM)
    (temperature now : ℚ) (hen : cfg.kiln_must_catch_up = true) :
    (|st.target_temp - temperature| > cfg.kiln_must_catch_up_max_error →
      (catch_up_tick cfg st temperature now).are_catching_up = true ∧
      (catch_up_tick cfg st temperature now).runtime_secs = st.runtime_secs) ∧
    (st.are_catching_up = true →
      |st.target_temp - temperature| ≤ cfg.kiln_must_catch_up_max_error →
      st.start_time ≤ now →
      (catch_up_tick cfg st temperature now).are_catching_up = false ∧
      (catch_up_tick cfg st temperature now).total_catch_up_secs =
        st.total_catch_up_secs + (now - st.catchup_start_time) ∧
      (catch_up_tick cfg st temperature now).runtime_secs =
        st.start_at_secs + (st.catchup_start_time - st.start_time) -
          st.total_catch_up_secs) := by
  constructor
  · intro habs
    by_cases h1 : st.target_temp - temperature > cfg.kiln_must_catch_up_max_error
    · by_cases hc : st.are_catching_up = true <;>
        simp [catch_up_tick, kiln_must_catch_up, catch_up_on, update_runtime,
          hen, h1, hc]
    · have h2 : temperature - st.target_temp > cfg.kiln_must_catch_up_max_error := by
        rcases lt_abs.mp habs with h | h
        · exact absurd h h1
        · linarith
      by_cases hc : st.are_catching_up = true <;>
        simp [catch_up_tick, kiln_must_catch_up, catch_up_on, update_runtime,
          hen, h1, h2, hc]
  · intro hc hle hstart
    have hb := abs_le.mp hle
    have h1 : ¬(st.target_temp - temperature > cfg.kiln_must_catch_up_max_error) := by
      linarith [hb.2]
    have h2 : ¬(temperature - st.target_temp > cfg.kiln_must_catch_up_max_error) := by
      linarith [hb.1]
    have hd : ¬(now - st.start_time < 0) := by linarith
    refine ⟨?_, ?_, ?_⟩
    · simp [catch_up_tick, kiln_must_catch_up, catch_up_off, update_runtime,
        hen, h1, h2, hc, hd]
    · simp [catch_up_tick, kiln_must_catch_up, catch_up_off, update_runtime,
        hen, h1, h2, hc, hd]
    · simp [catch_up_tick, kiln_must_catch_up, catch_up_off, update_runtime,
        hen, h1, h2, hc, hd]
      ring

/-- C6 amended, witness: the concrete resume tick of the scenario above,
obtained from the amended theorem. -/
theorem C6_catch_up_freeze_resume_witness :
    (catch_up_tick cfgC6 ovenC6catching 500 30).are_catching_up = false ∧
    (catch_up_tick cfgC6 ovenC6catching 500 30).total_catch_up_secs =
      ovenC6catching.total_catch_up_secs +
        (30 - ovenC6catching.catchup_start_time) ∧
    (catch_up_tick cfgC6 ovenC6catching 500 30).runtime_secs =
      ovenC6catching.start_at_secs +
        (ovenC6catching.catchup_start_time - ovenC6catching.start_time) -
          ovenC6catching.total_catch_up_secs :=
  (C6_catch_up_freeze_resume cfgC6 ovenC6catching 500 30 rfl).2 rfl
    (by norm_num [ovenC6catching, cfgC6]) (by norm_num [ovenC6catching])

/-- C7: on a tick in the `RUNNING` state, a measured temperature at or
above `emergency_shutoff_temp` with `ignore_emergencies` unset resets the
oven to `IDLE`; with `ignore_emergencies` set, `reset_if_emergency`
leaves the state record completely untouched (no reset for any emergency
condition) and the oven remains `RUNNING`. -/
theorem C7_emergency_shutoff (cfg : OvenCfg) (st : OvenSM)
    (status : TempSensorStatus) (hrun : st.state = OvenState.RUNNING) :
    (status.temperature ≥ cfg.emergency_shutoff_temp →
      cfg.ignore_emergencies = false →
      (reset_if_emergency cfg st status).state = OvenState.IDLE) ∧
    (cfg.ignore_emergencies = true →
      reset_if_emergency cfg st status = st ∧
      (reset_if_emergency cfg st status).state = OvenState.RUNNING) := by
  constructor
  · intro htemp hig
    simp [reset_if_emergency, ovenReset, htemp, hig]
  · intro hig
    have hst : reset_if_emergency cfg st status = st := by
      simp [reset_if_emergency, hig]
    exact ⟨hst, by rw [hst]; exact hrun⟩

/-- C7 witness: a running oven at 400 degrees with shutoff 300 resets to
`IDLE` when emergencies are honoured. -/
theorem C7_emergency_shutoff_witness :
    (reset_if_emergency { emergency_shutoff_temp := 300 }
        { state := OvenState.RUNNING } { temperature := 400 }).state
      = OvenState.IDLE :=
  (C7_emergency_shutoff { emergency_shutoff_temp := 300 }
      { state := OvenState.RUNNING } { temperature := 400 } rfl).1
    (by norm_num) rfl

/-- C8: processing `RunProfile` never raises (given the profile has at
least one point, so `get_duration` succeeds): the resulting state is
`RUNNING` exactly when all four sensor fault flags are clear, and `IDLE`
(the refused, freshly-reset state) when any fault flag is set. -/
theorem C8_run_profile_guard (st : OvenSM) (status : TempSensorStatus)
    (p : Profile) (start_at_minute now : ℚ) (hp : p.data ≠ []) :
    (run_profile_step st status p start_at_minute now).map (fun s => s.state) =
      some (if status.noConnection || status.shortToGround ||
          status.shortToVCC || status.unknownError then OvenState.IDLE
        else OvenState.RUNNING) := by
  obtain ⟨d, hd⟩ := get_duration_ne_none p.data hp
  by_cases h1 : status.noConnection = true <;>
    by_cases h2 : status.shortToGround = true <;>
      by_cases h3 : status.shortToVCC = true <;>
        by_cases h4 : status.unknownError = true <;>
          simp [run_profile_step, ovenReset, h1, h2, h3, h4, hd]

/-- C8 witness: with a fault-free sensor the oven starts the profile and
ends up `RUNNING`. -/
theorem C8_run_profile_guard_witness :
    (run_profile_step { state := OvenState.IDLE } {}
        { name := "ramp", data := [(0, 20), (60, 100)] } 0 0).map
      (fun s => s.state) = some OvenState.RUNNING := by
  have h := C8_run_profile_guard { state := OvenState.IDLE } {}
    { name := "ramp", data := [(0, 20), (60, 100)] } 0 0 (by simp)
  simpa using h

/-! ## Claim C1: profile target-temperature interpolation -/

/-- Helper: `get_duration` returns `none` only on the empty list. -/
theorem get_duration_eq_none_iff (data : List (ℚ × ℚ)) :
    get_duration data = none ↔ data = [] := by
  cases data with
  | nil => simp [get_duration]
  | cons p rest => cases hrest : get_duration rest <;> simp [get_duration, hrest]

/-- Helper: the duration bounds every point time from above. -/
theorem get_duration_ub (data : List (ℚ × ℚ)) :
    ∀ d, get_duration data = some d → ∀ q ∈ data, q.1 ≤ d := by
  induction data with
  | nil => intro d _ q hq; simp at hq
  | cons p rest ih =>
    intro d h q hq
    rcases List.mem_cons.mp hq with rfl | hq2
    · cases hrest : get_duration rest with
      | none =>
        simp [get_duration, hrest] at h
        exact le_of_eq h
      | some dr =>
        simp [get_duration, hrest] at h
        rw [← h]
        exact le_max_left _ _
    · cases hrest : get_duration rest with
      | none =>
        have : rest = [] := (get_duration_eq_none_iff rest).mp hrest
        subst this
        simp at hq2
      | some dr =>
        simp [get_duration, hrest] at h
        calc q.1 ≤ dr := ih dr hrest q hq2
          _ ≤ max p.1 dr := le_max_right _ _
          _ = d := h

/-- Helper: the duration is attained by some point. -/
theorem get_duration_mem (data : List (ℚ × ℚ)) :
    ∀ d, get_duration data = some d → ∃ q ∈ data, q.1 = d := by
  induction data with
  | nil => intro d h; simp [get_duration] at h
  | cons p rest ih =>
    intro d h
    cases hrest : get_duration rest with
    | none =>
      simp [get_duration, hrest] at h
      exact ⟨p, by simp, h⟩
    | some dr =>
      simp [get_duration, hrest] at h
      rcases max_choice p.1 dr with hm | hm
      · exact ⟨p, by simp, by rw [← h, hm]⟩
      · obtain ⟨q, hq, hqd⟩ := ih dr hrest
        exact ⟨q, by simp [hq], by rw [← h, hm, hqd]⟩

/-- Helper: the bracket scan finds nothing when no point time exceeds
`t`. -/
theorem bracketAux_eq_none (t : ℚ) :
    ∀ (l : List (ℚ × ℚ)) (prev : ℚ × ℚ), (∀ q ∈ l, ¬t < q.1) →
      bracketAux t prev l = none := by
  intro l
  induction l with
  | nil => intro prev _; rfl
  | cons p rest ih =>
    intro prev h
    rw [bracketAux, if_neg (h p (by simp))]
    exact ih p (fun q hq => h q (by simp [hq]))

/-- Helper: the bracket scan skips every point whose time is at most `t`,
carrying the last skipped point as the new `prev` seed. -/
theorem bracketAux_skip (t : ℚ) :
    ∀ (l : List (ℚ × ℚ)) (prev a : ℚ × ℚ) (rest : List (ℚ × ℚ)),
      (∀ q ∈ l, q.1 ≤ t) → a.1 ≤ t →
      bracketAux t prev (l ++ a :: rest) = bracketAux t a rest := by
  intro l
  induction l with
  | nil =>
    intro prev a rest _ ha
    rw [List.nil_append, bracketAux, if_neg (not_lt.mpr ha)]
  | cons p l ih =>
    intro prev a rest h ha
    rw [List.cons_append, bracketAux, if_neg (not_lt.mpr (h p (by simp)))]
    exact ih p a rest (fun q hq => h q (by simp [hq])) ha

/-- C1 counterexample: for the spec's own example profile
`[[0, 20], [60, 100]]` at `t = 60` (the duration, inside `[0, duration]`
and the endpoint of the final segment), the code returns 0 while the
claim's interpolation formula demands 100. -/
theorem C1_duration_endpoint_counterexample :
    get_target_temperature [(0, 20), (60, 100)] 60 = some 0 ∧
    (20 : ℚ) + (60 - 0) * ((100 - 20) / (60 - 0)) = 100 ∧ (0 : ℚ) ≠ 100 := by
  refine ⟨?_, by norm_num, by norm_num⟩
  norm_num [get_target_temperature, get_surrounding_points, get_duration,
    bracketAux]

/-- C1 amended: for a profile whose point times are strictly increasing,
`get_target_temperature` returns 0 for every `t ≥ duration` (including
`t = duration` itself), and returns the linear interpolation
`v0 + (t - t0) * (v1 - v0) / (t1 - t0)` for every pair of consecutive
points `(t0,v0), (t1,v1)` and every `t` with `t0 ≤ t ≤ t1` that lies
strictly below the duration.  (For `t` below the first point's time the
code brackets with the LAST and first points - Python's `data[-1]` - so
the original "0 outside [0, duration]" clause fails there as well.) -/
theorem C1_target_temperature_interp (data : List (ℚ × ℚ))
    (hs : List.Pairwise (fun q r => q.1 < r.1) data) (t dur : ℚ)
    (hdur : get_duration data = some dur) :
    (dur ≤ t → get_target_temperature data t = some 0) ∧
    (∀ pre a b post, data = pre ++ a :: b :: post → a.1 ≤ t → t ≤ b.1 →
      t < dur →
      get_target_temperature data t =
        some (a.2 + (t - a.1) * ((b.2 - a.2) / (b.1 - a.1)))) := by
  constructor
  · intro hle
    have hne : data ≠ [] := by
      intro hnil
      rw [hnil] at hdur
      simp [get_duration] at hdur
    obtain ⟨last, hlast⟩ : ∃ x, data.getLast? = some x := by
      cases hl : data.getLast? with
      | none => rw [List.getLast?_eq_none_iff] at hl; exact absurd hl hne
      | some x => exact ⟨x, rfl⟩
    by_cases hgt : t > dur
    · simp [get_target_temperature, hdur, hgt]
    · have hsurr : get_surrounding_points data t = none := by
        simp only [get_surrounding_points, hdur, hlast]
        rw [if_neg hgt]
        exact bracketAux_eq_none t data last
          (fun q hq => not_lt.mpr
            (le_trans (get_duration_ub data dur hdur q hq) hle))
      simp [get_target_temperature, hdur, hsurr, hgt]
  · intro pre a b post heq ha hb hlt
    subst heq
    rw [List.pairwise_append] at hs
    obtain ⟨_, hrest_pw, hcross⟩ := hs
    have hab : a.1 < b.1 := (List.pairwise_cons.mp hrest_pw).1 b (by simp)
    have hbpost : ∀ c ∈ post, b.1 < c.1 := fun c hc =>
      (List.pairwise_cons.mp (List.pairwise_cons.mp hrest_pw).2).1 c hc
    have hpre_t : ∀ q ∈ pre, q.1 ≤ t := fun q hq =>
      le_trans (le_of_lt (hcross q hq a (by simp))) ha
    have hne2 : (pre ++ a :: b :: post) ≠ [] := by simp
    obtain ⟨last, hlast⟩ : ∃ x, (pre ++ a :: b :: post).getLast? = some x := by
      cases hl : (pre ++ a :: b :: post).getLast? with
      | none => rw [List.getLast?_eq_none_iff] at hl; exact absurd hl hne2
      | some x => exact ⟨x, rfl⟩
    have hngt : ¬t > dur := not_lt.mpr (le_of_lt hlt)
    have hba : ¬(b.1 - a.1 = 0) := sub_ne_zero.mpr (ne_of_gt hab)
    rcases lt_or_eq_of_le hb with hb' | hb'
    · -- t is strictly inside the segment: the scan stops at b
      have hbr : bracketAux t last (pre ++ a :: b :: post) = some (a, b) := by
        rw [bracketAux_skip t pre last a (b :: post) hpre_t ha, bracketAux,
          if_pos hb']
      have hsurr : get_surrounding_points (pre ++ a :: b :: post) t
          = some (a, b) := by
        simp only [get_surrounding_points, hdur, hlast]
        rw [if_neg hngt]
        exact hbr
      simp [get_target_temperature, hdur, hsurr, hngt, hba]
    · -- t equals b's time; since t < dur there is a further point c and
      -- the scan stops there, yielding the same value b.2
      cases post with
      | nil =>
        exfalso
        obtain ⟨q, hq, hqd⟩ := get_duration_mem _ dur hdur
        have hqt : q.1 ≤ t := by
          rcases List.mem_append.mp hq with hq | hq
          · exact hpre_t q hq
          · simp at hq
            rcases hq with rfl | rfl
            · exact ha
            · exact le_of_eq hb'.symm
        rw [hqd] at hqt
        exact absurd hlt (not_lt.mpr hqt)
      | cons c post' =>
        have hbclt : b.1 < c.1 := hbpost c (by simp)
        have hbc : t < c.1 := lt_of_le_of_lt (le_of_eq hb') hbclt
        have hcb : ¬(c.1 - b.1 = 0) := sub_ne_zero.mpr (ne_of_gt hbclt)
        have hall : ∀ q ∈ pre ++ [a], q.1 ≤ t := by
          intro q hq
          rcases List.mem_append.mp hq with hq | hq
          · exact hpre_t q hq
          · simp at hq
            exact hq ▸ ha
        have hassoc : pre ++ a :: b :: c :: post'
            = (pre ++ [a]) ++ b :: c :: post' := by simp
        have hbr : bracketAux t last (pre ++ a :: b :: c :: post')
            = some (b, c) := by
          rw [hassoc,
            bracketAux_skip t (pre ++ [a]) last b (c :: post') hall
              (le_of_eq hb'.symm),
            bracketAux, if_pos hbc]
        have hsurr : get_surrounding_points (pre ++ a :: b :: c :: post') t
            = some (b, c) := by
          simp only [get_surrounding_points, hdur, hlast]
          rw [if_neg hngt]
          exact hbr
        have hmul : (b.1 - a.1) * ((b.2 - a.2) / (b.1 - a.1)) = b.2 - a.2 := by
          rw [mul_comm]
          exact div_mul_cancel₀ _ hba
        have hval : b.2 + (t - b.1) * ((c.2 - b.2) / (c.1 - b.1))
            = a.2 + (t - a.1) * ((b.2 - a.2) / (b.1 - a.1)) := by
          rw [hb', sub_self, zero_mul, add_zero, hmul]
          ring
        simp only [get_target_temperature, hdur, hsurr]
        rw [if_neg hngt]
        simp only [if_neg hcb]
        exact congrArg some hval

/-- C1 amended, witness: the spec's example profile `[[0, 20], [60, 100]]`
at `t = 30` interpolates to 60 degrees. -/
theorem C1_target_temperature_interp_witness :
    get_target_temperature [(0, 20), (60, 100)] 30 =
      some (20 + (30 - 0) * ((100 - 20) / (60 - 0))) :=
  (C1_target_temperature_interp [(0, 20), (60, 100)]
      (by norm_num [List.pairwise_cons]) 30 60
      (by norm_num [get_duration, max_def])).2
    [] (0, 20) (60, 100) [] rfl (by norm_num) (by norm_num) (by norm_num)
